import Mathlib

/-!
Shallow embedding of the X-ray utility functions and the `set_influence`
routine of the FMX profile collection (`startup/99-macros.py` and
`startup/99-macros_99.py`), together with theorems settling the claims
about them.

Real-valued Python/numpy arithmetic is embedded into `ℝ`; the one numpy
operation with a non-numeric outcome that the claims depend on is
`np.arcsin`, which yields NaN outside `[-1, 1]` — it is embedded as an
`Option ℝ` (`none` models NaN).  The `set_influence` routine only adds,
subtracts and compares voltages, so its voltages are embedded as `ℚ`,
keeping the whole routine executable.
-/

open Real

/-- `np.arcsin`: real arcsine on `[-1, 1]`, NaN (modelled `none`) outside. -/
noncomputable def npArcsin (x : ℝ) : Option ℝ :=
  if |x| ≤ 1 then some (Real.arcsin x) else none

/-- `tt = t*np.pi/180 if t > 1 else t` — the angle-unit heuristic shared by
both copies of `xf_bragg2e`. -/
noncomputable def ttOf (t : ℝ) : ℝ :=
  if 1 < t then t * Real.pi / 180 else t

/-- `if LN: LN=1` — Python truthiness: any nonzero `LN` becomes 1. -/
def lnEff (LN : ℤ) : ℝ := if LN = 0 then 0 else 1

/-- The expression `h^2+k^2+l^2` as Python actually parses it in
`startup/99-macros.py`: `^` is bitwise XOR and binds weaker than `+`,
so it is `((h XOR (2+k)) XOR (2+l)) XOR 2`. -/
def millerXor (h k l : ℕ) : ℕ := ((h ^^^ (2 + k)) ^^^ (2 + l)) ^^^ 2

/-- The expression `h**2+k**2+l**2` of `startup/99-macros_99.py`,
as a real number. -/
def millerSq (h k l : ℕ) : ℝ := (h : ℝ) ^ 2 + (k : ℝ) ^ 2 + (l : ℝ) ^ 2

/-- Body shared by the two copies of `xf_bragg2e`, parameterised by the
value `s` of the sum-of-squares expression (the only place the two copies
differ):
`d0 = 2*5.43102*(1-2.4e-4*LN)/np.sqrt(s)`; `E = 12398.42/(d0*np.sin(tt))`. -/
noncomputable def bragg2eVal (s t lnv : ℝ) : ℝ :=
  12398.42 / (2 * 5.43102 * (1 - 2.4e-4 * lnv) / Real.sqrt s * Real.sin (ttOf t))

/-- `xf_bragg2e` of `startup/99-macros.py` (lines 306–323): the
sum-of-squares expression is the XOR chain `millerXor`. -/
noncomputable def xf_bragg2e (t : ℝ) (h k l : ℕ) (LN : ℤ) : ℝ :=
  bragg2eVal (millerXor h k l : ℝ) t (lnEff LN)

/-- `xf_bragg2e` of `startup/99-macros_99.py` (lines 169–186): identical to
the `99-macros.py` copy except that it uses `**`, so the sum of squares is
the arithmetic `millerSq`. -/
noncomputable def xf_bragg2e_99 (t : ℝ) (h k l : ℕ) (LN : ℤ) : ℝ :=
  bragg2eVal (millerSq h k l) t (lnEff LN)

/-- The conversion part of `xf_e2bragg` (the code after the unit
heuristic), parameterised by the sum-of-squares value `s`:
`d0 = 2*5.43102/np.sqrt(s)`; `t = np.arcsin(12398.42/d0/E) * 180/np.pi`. -/
noncomputable def e2braggConv (s E : ℝ) : Option ℝ :=
  (npArcsin (12398.42 / (2 * 5.43102 / Real.sqrt s) / E)).map
    (fun a => a * (180 / Real.pi))

/-- Body shared by the two copies of `xf_e2bragg`:
`if E<100: E=E*1e3` then the conversion. -/
noncomputable def e2braggVal (s E : ℝ) : Option ℝ :=
  e2braggConv s (if E < 100 then E * 1e3 else E)

/-- `xf_e2bragg` of `startup/99-macros.py` (lines 325–340): uses the XOR
chain, like that file's `xf_bragg2e`. -/
noncomputable def xf_e2bragg (E : ℝ) (h k l : ℕ) : Option ℝ :=
  e2braggVal (millerXor h k l : ℝ) E

/-- `xf_e2bragg` of `startup/99-macros_99.py` (lines 189–204): uses the
arithmetic sum of squares. -/
noncomputable def xf_e2bragg_99 (E : ℝ) (h k l : ℕ) : Option ℝ :=
  e2braggVal (millerSq h k l) E

/-- `xf_detZ2recResolution` (identical in both files):
`recResolution = xLambda/(2*np.sin(0.5*np.arctan(0.5*D/detZ)))`. -/
noncomputable def xf_detZ2recResolution (detZ xLambda D : ℝ) : ℝ :=
  xLambda / (2 * Real.sin (0.5 * Real.arctan (0.5 * D / detZ)))

/-- `xf_recResolution2detZ` (identical in both files):
`detZ = 0.5*D/np.tan(2*np.arcsin(xLambda/(2*recResolution)))`;
`none` models the NaN that `np.arcsin` yields outside `[-1, 1]`. -/
noncomputable def xf_recResolution2detZ (recResolution xLambda D : ℝ) : Option ℝ :=
  (npArcsin (xLambda / (2 * recResolution))).map
    (fun a => 0.5 * D / Real.tan (2 * a))

section SetInfluence

/-- A write sent to the Spellman HV power supply by `set_influence`:
the bank-selection put `bank_pv.put(bank-1)`, the decrement put
`decr_pv.put(electrode-1)` and the increment put `incr_pv.put(electrode)`. -/
inductive PSWrite where
  | bankSelect : ℤ → PSWrite
  | decr : ℤ → PSWrite
  | incr : ℤ → PSWrite
deriving DecidableEq

/-- How a call of `set_influence` ends: one of the two early validation
returns (each prints which condition failed), the safety return on a >500
demand difference, or the normal path. -/
inductive InfluenceOutcome where
  | bimorphError
  | electrodeError
  | safetyAbort
  | ok
deriving DecidableEq

/-- The environment `set_influence` reads from the power supply after
selecting the bank: the step size `U_STEP_MON.A` and the 16 demand
monitors `U{i}_CURRENT_MON` of the selected bank. -/
structure InfluenceEnv where
  step : ℚ
  demands : Fin 16 → ℚ

/-- Observable behaviour of one `set_influence` call: how it ended, the
writes it issued in order, and how many PV reads it performed. -/
structure InfluenceResult where
  outcome : InfluenceOutcome
  writes : List PSWrite
  readCount : ℕ
deriving DecidableEq

/-- `np.diff`: successive differences `xs[i+1] - xs[i]`. -/
def npDiff (xs : List ℚ) : List ℚ :=
  (xs.zip xs.tail).map fun p => p.2 - p.1

/-- The recomputed demand vector of `set_influence`:
`i = electrode if electrode < 16 else electrode-16`;
`if i > 0: new_demands[i-1] -= step`; `new_demands[i] += step`. -/
def newDemands (electrode : ℤ) (env : InfluenceEnv) : List ℚ :=
  let ds := List.ofFn env.demands
  let i := (if electrode < 16 then electrode else electrode - 16).toNat
  let d1 := if 0 < i then ds.set (i - 1) (ds.getD (i - 1) 0 - env.step) else ds
  d1.set i (d1.getD i 0 + env.step)

/-- The safety check of `set_influence`:
`for diff in np.diff(...): if abs(diff) > 500: return`. -/
def hasBigDiff (xs : List ℚ) : Bool :=
  xs.any fun d => decide (500 < |d|)

/-- `set_influence` (identical in `startup/99-macros.py` lines 230–301 and
`startup/99-macros_99.py` lines 93–164).  The PV name prefix only selects
which supply is addressed and is not part of the observable behaviour
modelled here.  Before any read or write it validates `bimorph` and
`electrode`; it then issues the bank-selection write, reads the step size
and the 16 demands (17 reads), recomputes the demand vector, and either
returns on a >500 adjacent difference or issues the decrement (when
`i > 0`) and increment writes. -/
def set_influence (electrode : ℤ) (bimorph : String) (bank : ℤ)
    (env : InfluenceEnv) : InfluenceResult :=
  if bimorph ∉ (["hfm", "kb"] : List String) then
    ⟨.bimorphError, [], 0⟩
  else if electrode < 0 ∨ 31 < electrode then
    ⟨.electrodeError, [], 0⟩
  else if hasBigDiff (npDiff (newDemands electrode env)) then
    ⟨.safetyAbort, [.bankSelect (bank - 1)], 17⟩
  else
    let i := (if electrode < 16 then electrode else electrode - 16).toNat
    ⟨.ok, [.bankSelect (bank - 1)]
            ++ (if 0 < i then [.decr (electrode - 1)] else [])
            ++ [.incr electrode], 17⟩

end SetInfluence

section Lemmas

lemma lnEff_zero : lnEff 0 = 0 := rfl

lemma millerXor_default : millerXor 1 1 1 = 3 := by decide

lemma millerXor_112 : millerXor 1 1 2 = 4 := by decide

lemma millerXor_zero : millerXor 0 0 0 = 2 := by decide

/-- When the angle-unit heuristic fires (`t > 1`), the working angle is
`t·π/180`. -/
lemma ttOf_of_one_lt {t : ℝ} (h : 1 < t) : ttOf t = t * Real.pi / 180 :=
  if_pos h

/-- The sine of the working angle lies in `(0, 1]` whenever the working
angle lies in `(0, π/2]`. -/
lemma sin_ttOf_mem {t : ℝ} (h1 : 0 < ttOf t) (h2 : ttOf t ≤ Real.pi / 2) :
    0 < Real.sin (ttOf t) ∧ Real.sin (ttOf t) ≤ 1 := by
  refine ⟨Real.sin_pos_of_pos_of_lt_pi h1 (lt_of_le_of_lt h2 ?_), Real.sin_le_one _⟩
  linarith [Real.pi_pos]

/-- Core round-trip fact shared by both file versions: converting a Bragg
angle to an energy (with the cold-crystal correction disabled) and back
recovers the working angle in degrees, for any value `s ≥ 1` of the
sum-of-squares expression. -/
lemma e2bragg_bragg2e (s t : ℝ) (hs : 1 ≤ s)
    (h1 : 0 < ttOf t) (h2 : ttOf t ≤ Real.pi / 2) :
    e2braggVal s (bragg2eVal s t 0) = some (ttOf t * (180 / Real.pi)) := by
  obtain ⟨hsin, hsin1⟩ := sin_ttOf_mem h1 h2
  have hsq1 : (1 : ℝ) ≤ Real.sqrt s := by
    simpa [Real.sqrt_one] using Real.sqrt_le_sqrt hs
  have hsqpos : (0 : ℝ) < Real.sqrt s := lt_of_lt_of_le one_pos hsq1
  have hd0pos : (0 : ℝ) < 2 * 5.43102 / Real.sqrt s := by positivity
  have hd0le : 2 * 5.43102 / Real.sqrt s ≤ 2 * 5.43102 :=
    div_le_self (by norm_num) hsq1
  have hden_pos : 0 < 2 * 5.43102 / Real.sqrt s * Real.sin (ttOf t) :=
    mul_pos hd0pos hsin
  have hden_le : 2 * 5.43102 / Real.sqrt s * Real.sin (ttOf t) ≤ 2 * 5.43102 := by
    calc 2 * 5.43102 / Real.sqrt s * Real.sin (ttOf t)
        ≤ 2 * 5.43102 / Real.sqrt s * 1 := by
          exact mul_le_mul_of_nonneg_left hsin1 (le_of_lt hd0pos)
      _ ≤ 2 * 5.43102 := by rw [mul_one]; exact hd0le
  have hEval : bragg2eVal s t 0
      = 12398.42 / (2 * 5.43102 / Real.sqrt s * Real.sin (ttOf t)) := by
    unfold bragg2eVal; norm_num
  have hElarge : ¬ bragg2eVal s t 0 < 100 := by
    rw [hEval]
    have h1' : (100 : ℝ) ≤ 12398.42 / (2 * 5.43102) := by norm_num
    have h2' : (12398.42 : ℝ) / (2 * 5.43102)
        ≤ 12398.42 / (2 * 5.43102 / Real.sqrt s * Real.sin (ttOf t)) :=
      div_le_div_of_nonneg_left (by norm_num) hden_pos hden_le
    linarith
  have harg : 12398.42 / (2 * 5.43102 / Real.sqrt s) / bragg2eVal s t 0
      = Real.sin (ttOf t) := by
    rw [hEval]
    field_simp
    ring
  unfold e2braggVal e2braggConv
  rw [if_neg hElarge, harg]
  have habs : |Real.sin (ttOf t)| ≤ 1 := by
    rw [abs_of_pos hsin]; exact hsin1
  rw [npArcsin, if_pos habs, Real.arcsin_sin (by linarith [Real.pi_pos]) h2]
  rfl

/-- Detector distance → resolution → detector distance round-trip, for any
positive distance, wavelength and detector diameter. -/
lemma recRes_roundtrip (z lam D : ℝ) (hz : 0 < z) (hl : 0 < lam) (hD : 0 < D) :
    xf_recResolution2detZ (xf_detZ2recResolution z lam D) lam D = some z := by
  unfold xf_detZ2recResolution xf_recResolution2detZ
  have hu : 0 < 0.5 * D / z := by positivity
  have hθ0 : 0 < Real.arctan (0.5 * D / z) := by
    rw [← Real.arctan_zero]; exact Real.arctan_strictMono hu
  have hθlt : Real.arctan (0.5 * D / z) < Real.pi / 2 :=
    Real.arctan_lt_pi_div_two _
  have hx0 : 0 < 0.5 * Real.arctan (0.5 * D / z) := by positivity
  have hxlt : 0.5 * Real.arctan (0.5 * D / z) < Real.pi / 2 := by linarith
  have hsinx : 0 < Real.sin (0.5 * Real.arctan (0.5 * D / z)) :=
    Real.sin_pos_of_pos_of_lt_pi hx0 (by linarith [Real.pi_pos])
  have harg : lam / (2 * (lam / (2 * Real.sin (0.5 * Real.arctan (0.5 * D / z)))))
      = Real.sin (0.5 * Real.arctan (0.5 * D / z)) := by
    field_simp
    ring
  rw [harg, npArcsin,
    if_pos (by rw [abs_of_pos hsinx]; exact Real.sin_le_one _),
    Real.arcsin_sin (by linarith [Real.pi_pos]) (le_of_lt hxlt)]
  have h2x : 2 * (0.5 * Real.arctan (0.5 * D / z)) = Real.arctan (0.5 * D / z) := by
    ring
  rw [Option.map_some', h2x, Real.tan_arctan]
  have : 0.5 * D / (0.5 * D / z) = z := by
    field_simp
  rw [this]

/-- At the example input the distance-to-resolution formula reduces to
`1 / (2·sin(arctan(1/2) / 2))`. -/
lemma res_example_eq : xf_detZ2recResolution 327.8 1 327.8
    = 1 / (2 * Real.sin (Real.arctan 0.5 / 2)) := by
  unfold xf_detZ2recResolution
  rw [show (0.5 : ℝ) * 327.8 / 327.8 = 0.5 by norm_num,
    show (0.5 : ℝ) * Real.arctan 0.5 = Real.arctan 0.5 / 2 by ring]

/-- Numeric bounds for the example: the resolution at 327.8 mm, 1 Å,
diameter 327.8 mm lies strictly between 2.17 Å and 2.18 Å. -/
lemma res_example_bounds : 2.17 < xf_detZ2recResolution 327.8 1 327.8
    ∧ xf_detZ2recResolution 327.8 1 327.8 < 2.18 := by
  rw [res_example_eq]
  have hθ0 : 0 < Real.arctan (0.5 : ℝ) := by
    rw [← Real.arctan_zero]; exact Real.arctan_strictMono (by norm_num)
  have hθlt : Real.arctan (0.5 : ℝ) < Real.pi / 2 := Real.arctan_lt_pi_div_two _
  have hcos : Real.cos (Real.arctan (0.5 : ℝ)) = 1 / Real.sqrt 1.25 := by
    rw [Real.cos_arctan]; norm_num
  have hq2 : Real.sqrt 1.25 ^ 2 = 1.25 := Real.sq_sqrt (by norm_num)
  have hq_pos : (0 : ℝ) < Real.sqrt 1.25 := Real.sqrt_pos.mpr (by norm_num)
  have hq_ub : Real.sqrt 1.25 < 1.11804 :=
    (Real.sqrt_lt' (by norm_num)).mpr (by norm_num)
  have hq_lb : (1.118 : ℝ) < Real.sqrt 1.25 :=
    (Real.lt_sqrt (by norm_num)).mpr (by norm_num)
  have hinv_lb : (0.894422 : ℝ) < 1 / Real.sqrt 1.25 := by
    rw [lt_div_iff hq_pos]; nlinarith
  have hinv_ub : 1 / Real.sqrt 1.25 < 0.894455 := by
    rw [div_lt_iff hq_pos]; nlinarith
  have hsin : Real.sin (Real.arctan (0.5 : ℝ) / 2)
      = Real.sqrt ((1 - Real.cos (Real.arctan (0.5 : ℝ))) / 2) :=
    Real.sin_half_eq_sqrt (le_of_lt hθ0) (by linarith [Real.pi_pos])
  rw [hsin, hcos]
  have hw_lb : (0.0527725 : ℝ) < (1 - 1 / Real.sqrt 1.25) / 2 := by linarith
  have hw_ub : (1 - 1 / Real.sqrt 1.25) / 2 < 0.052789 := by linarith
  have hsv_pos : 0 < Real.sqrt ((1 - 1 / Real.sqrt 1.25) / 2) :=
    Real.sqrt_pos.mpr (by linarith)
  have hsv_ub : Real.sqrt ((1 - 1 / Real.sqrt 1.25) / 2) < 0.2298 :=
    (Real.sqrt_lt' (by norm_num)).mpr (by nlinarith)
  have hsv_lb : (0.22971 : ℝ) < Real.sqrt ((1 - 1 / Real.sqrt 1.25) / 2) :=
    (Real.lt_sqrt (by norm_num)).mpr (by nlinarith)
  constructor
  · rw [lt_div_iff (by positivity)]; nlinarith
  · rw [div_lt_iff (by positivity)]; nlinarith

/-- `xf_e2bragg`/`xf_e2bragg_99` yield NaN (`none`) whenever the arcsine
argument is outside `[-1, 1]` and the energy heuristic does not fire. -/
lemma e2bragg_none_of_big (s E : ℝ) (hE : 100 ≤ E)
    (h : 1 < |12398.42 / (2 * 5.43102 / Real.sqrt s) / E|) :
    e2braggVal s E = none := by
  unfold e2braggVal e2braggConv
  rw [if_neg (not_lt.mpr hE), npArcsin, if_neg (not_le.mpr h)]
  rfl

/-- The arcsine argument at 1000 eV with the default Miller indices is
greater than 1. -/
lemma arg_bound_3 : 1 < |12398.42 / (2 * 5.43102 / Real.sqrt 3) / 1000| := by
  have h1 : (1 : ℝ) ≤ Real.sqrt 3 := by
    rw [← Real.sqrt_one]
    exact Real.sqrt_le_sqrt (by norm_num)
  have hpos : (0 : ℝ) < 2 * 5.43102 / Real.sqrt 3 := by positivity
  have hle : 2 * 5.43102 / Real.sqrt 3 ≤ 2 * 5.43102 := div_le_self (by norm_num) h1
  have hval : (12398.42 : ℝ) / (2 * 5.43102) / 1000
      ≤ 12398.42 / (2 * 5.43102 / Real.sqrt 3) / 1000 := by
    apply div_le_div_of_nonneg_right _ (by norm_num)
    exact div_le_div_of_nonneg_left (by norm_num) hpos hle
  have hbase : (1 : ℝ) < 12398.42 / (2 * 5.43102) / 1000 := by norm_num
  rw [abs_of_pos (by positivity)]
  linarith

/-- Strict monotonicity of the Bragg energy in the sum-of-squares value:
a larger denominator expression gives a larger energy at the same angle. -/
lemma bragg2eVal_lt_of_lt (t : ℝ) (h1 : 0 < ttOf t) (h2 : ttOf t < Real.pi)
    {s₁ s₂ : ℝ} (hs1 : 0 < s₁) (hlt : s₁ < s₂) :
    bragg2eVal s₁ t 0 < bragg2eVal s₂ t 0 := by
  have hsin : 0 < Real.sin (ttOf t) := Real.sin_pos_of_pos_of_lt_pi h1 h2
  have hq1 : (0 : ℝ) < Real.sqrt s₁ := Real.sqrt_pos.mpr hs1
  have hq2 : (0 : ℝ) < Real.sqrt s₂ := Real.sqrt_pos.mpr (lt_trans hs1 hlt)
  have e1 : bragg2eVal s₁ t 0
      = 12398.42 * Real.sqrt s₁ / (2 * 5.43102 * Real.sin (ttOf t)) := by
    unfold bragg2eVal; field_simp
  have e2 : bragg2eVal s₂ t 0
      = 12398.42 * Real.sqrt s₂ / (2 * 5.43102 * Real.sin (ttOf t)) := by
    unfold bragg2eVal; field_simp
  rw [e1, e2]
  have hnum : 12398.42 * Real.sqrt s₁ < 12398.42 * Real.sqrt s₂ :=
    mul_lt_mul_of_pos_left (Real.sqrt_lt_sqrt (le_of_lt hs1) hlt) (by norm_num)
  exact (div_lt_div_right (by positivity)).mpr hnum

end Lemmas

section Claims

lemma millerSq_112 : millerSq 1 1 2 = 6 := by unfold millerSq; norm_num

lemma ttOf_ten_pos : 0 < ttOf 10 := by
  rw [ttOf_of_one_lt (by norm_num)]; positivity

lemma ttOf_ten_lt_pi : ttOf 10 < Real.pi := by
  rw [ttOf_of_one_lt (by norm_num)]; nlinarith [Real.pi_pos]

/-- Claim C1 (code_bug): at the input `t = 10, h = 1, k = 1, l = 2, LN = 0`,
the `99-macros.py` version of `xf_bragg2e` computes its denominator from
the XOR chain (value 4) instead of the arithmetic sum of squares (value 6)
the claim states; the `99-macros_99.py` version matches the claim's
formula, and the two values differ. -/
theorem xf_bragg2e_xor_slip :
    xf_bragg2e 10 1 1 2 0
      = 12398.42 / (2 * 5.43102 / Real.sqrt 4 * Real.sin (10 * Real.pi / 180))
    ∧ xf_bragg2e_99 10 1 1 2 0
      = 12398.42 / (2 * 5.43102 / Real.sqrt 6 * Real.sin (10 * Real.pi / 180))
    ∧ xf_bragg2e 10 1 1 2 0
      ≠ 12398.42 / (2 * 5.43102 / Real.sqrt 6 * Real.sin (10 * Real.pi / 180)) := by
  have htt : ttOf 10 = 10 * Real.pi / 180 := ttOf_of_one_lt (by norm_num)
  have heval : ∀ s : ℝ, bragg2eVal s 10 0
      = 12398.42 / (2 * 5.43102 / Real.sqrt s * Real.sin (10 * Real.pi / 180)) := by
    intro s; unfold bragg2eVal; rw [htt]; norm_num
  have h4 : xf_bragg2e 10 1 1 2 0 = bragg2eVal 4 10 0 := by
    unfold xf_bragg2e; rw [millerXor_112, lnEff_zero]; norm_num
  have h6 : xf_bragg2e_99 10 1 1 2 0 = bragg2eVal 6 10 0 := by
    unfold xf_bragg2e_99; rw [millerSq_112, lnEff_zero]
  have hne : bragg2eVal 4 10 0 ≠ bragg2eVal 6 10 0 :=
    ne_of_lt (bragg2eVal_lt_of_lt 10 ttOf_ten_pos ttOf_ten_lt_pi
      (by norm_num) (by norm_num))
  exact ⟨h4.trans (heval 4), h6.trans (heval 6),
    fun hc => hne (by rw [← h4, hc, ← heval 6])⟩

/-- Claim C2 counterexample: the two copies of `xf_bragg2e` disagree at
`t = 10, h = 1, k = 1, l = 2, LN = 0` (XOR chain gives 4, arithmetic
squares give 6). -/
theorem xf_bragg2e_copies_differ :
    xf_bragg2e 10 1 1 2 0 ≠ xf_bragg2e_99 10 1 1 2 0 := by
  have h4 : xf_bragg2e 10 1 1 2 0 = bragg2eVal 4 10 0 := by
    unfold xf_bragg2e; rw [millerXor_112, lnEff_zero]; norm_num
  have h6 : xf_bragg2e_99 10 1 1 2 0 = bragg2eVal 6 10 0 := by
    unfold xf_bragg2e_99; rw [millerSq_112, lnEff_zero]
  rw [h4, h6]
  exact ne_of_lt (bragg2eVal_lt_of_lt 10 ttOf_ten_pos ttOf_ten_lt_pi
    (by norm_num) (by norm_num))

/-- Claim C2 amended: at the default Miller indices `h = k = l = 1` the XOR
chain happens to evaluate to 3, the same value as the arithmetic sum of
squares, so there the two copies of `xf_bragg2e` agree for every angle and
every cooling flag. -/
theorem xf_bragg2e_copies_agree_default :
    ∀ (t : ℝ) (LN : ℤ), xf_bragg2e t 1 1 1 LN = xf_bragg2e_99 t 1 1 1 LN := by
  intro t LN
  unfold xf_bragg2e xf_bragg2e_99
  rw [millerXor_default]; unfold millerSq; norm_num

/-- Claim C3 (confirmed, in exact real arithmetic): with the cold-crystal
correction disabled, converting a Bragg angle to an energy and back with
the same Miller indices recovers the working angle expressed in degrees,
for both file versions, whenever the working angle is in `(0, π/2]` and
the sum-of-squares expression is nonzero. -/
theorem bragg_energy_roundtrip (t : ℝ) (h k l : ℕ)
    (hx : 0 < millerXor h k l) (hsq : 0 < h ^ 2 + k ^ 2 + l ^ 2)
    (h1 : 0 < ttOf t) (h2 : ttOf t ≤ Real.pi / 2) :
    xf_e2bragg (xf_bragg2e t h k l 0) h k l = some (ttOf t * (180 / Real.pi))
    ∧ xf_e2bragg_99 (xf_bragg2e_99 t h k l 0) h k l = some (ttOf t * (180 / Real.pi))
    ∧ (1 < t → ttOf t * (180 / Real.pi) = t) := by
  refine ⟨?_, ?_, ?_⟩
  · unfold xf_e2bragg xf_bragg2e
    rw [lnEff_zero]
    exact e2bragg_bragg2e _ t (by exact_mod_cast Nat.one_le_cast.mpr hx) h1 h2
  · unfold xf_e2bragg_99 xf_bragg2e_99
    rw [lnEff_zero]
    refine e2bragg_bragg2e _ t ?_ h1 h2
    have hc : (1 : ℝ) ≤ ((h ^ 2 + k ^ 2 + l ^ 2 : ℕ) : ℝ) :=
      Nat.one_le_cast.mpr hsq
    unfold millerSq
    push_cast at hc ⊢
    linarith
  · intro ht
    rw [ttOf_of_one_lt ht]
    field_simp

/-- Witness for C3 at `t = 10` degrees, `h = k = l = 1`. -/
theorem bragg_energy_roundtrip_witness :
    xf_e2bragg (xf_bragg2e 10 1 1 1 0) 1 1 1 = some 10 := by
  have h1 : 0 < ttOf 10 := ttOf_ten_pos
  have h2 : ttOf 10 ≤ Real.pi / 2 := by
    rw [ttOf_of_one_lt (by norm_num)]; nlinarith [Real.pi_pos]
  have hc := bragg_energy_roundtrip 10 1 1 1 (by decide) (by decide) h1 h2
  have hr := hc.1
  rw [hc.2.2 (by norm_num)] at hr
  exact hr

/-- Claim C4 (confirmed, in exact real arithmetic): the detector-distance
to resolution conversion and its inverse are round-trip inverses for every
positive distance, wavelength and diameter. -/
theorem detZ_resolution_roundtrip (z lam D : ℝ)
    (hz : 0 < z) (hl : 0 < lam) (hD : 0 < D) :
    xf_recResolution2detZ (xf_detZ2recResolution z lam D) lam D = some z :=
  recRes_roundtrip z lam D hz hl hD

/-- Witness for C4 at 100 mm, 1 Å, 327.8 mm. -/
theorem detZ_resolution_roundtrip_witness :
    (0 : ℝ) < 100 ∧
    xf_recResolution2detZ (xf_detZ2recResolution 100 1 327.8) 1 327.8 = some 100 :=
  ⟨by norm_num,
   detZ_resolution_roundtrip 100 1 327.8 (by norm_num) (by norm_num) (by norm_num)⟩

lemma ttOf_thirty : ttOf 30 = Real.pi / 6 := by
  rw [ttOf_of_one_lt (by norm_num)]; ring

/-- Claim C5 counterexample: at `h = k = l = 0` (angle 30°) the
`99-macros.py` version of `xf_bragg2e` raises nothing and returns an
ordinary positive number — the XOR chain evaluates to 2, not 0, so not
even a division by zero occurs. -/
theorem xf_bragg2e_zero_miller_value :
    xf_bragg2e 30 0 0 0 0 = 12398.42 / (2 * 5.43102 / Real.sqrt 2 * (1 / 2))
    ∧ 0 < xf_bragg2e 30 0 0 0 0 := by
  have h1 : xf_bragg2e 30 0 0 0 0 = bragg2eVal 2 30 0 := by
    unfold xf_bragg2e; rw [millerXor_zero, lnEff_zero]; norm_num
  have h2 : bragg2eVal 2 30 0
      = 12398.42 / (2 * 5.43102 / Real.sqrt 2 * (1 / 2)) := by
    unfold bragg2eVal; rw [ttOf_thirty, Real.sin_pi_div_six]; norm_num
  refine ⟨h1.trans h2, ?_⟩
  rw [h1, h2]
  have : (0:ℝ) < Real.sqrt 2 := Real.sqrt_pos.mpr (by norm_num)
  positivity

/-- Claim C5 amended: `xf_bragg2e` of `99-macros.py` performs no domain
check at `h = k = l = 0`; the XOR chain gives 2 and for any working angle
in `(0, π)` the function returns the explicit positive value below, never
an error. -/
theorem xf_bragg2e_zero_miller_no_error (t : ℝ) (LN : ℤ)
    (h1 : 0 < ttOf t) (h2 : ttOf t < Real.pi) :
    xf_bragg2e t 0 0 0 LN
      = 12398.42 / (2 * 5.43102 * (1 - 2.4e-4 * lnEff LN) / Real.sqrt 2
          * Real.sin (ttOf t))
    ∧ 0 < xf_bragg2e t 0 0 0 LN := by
  have heq : xf_bragg2e t 0 0 0 LN = bragg2eVal 2 t (lnEff LN) := by
    unfold xf_bragg2e; rw [millerXor_zero]; norm_num
  have hfac : 0 < 1 - 2.4e-4 * lnEff LN := by
    unfold lnEff; split <;> norm_num
  have hsin : 0 < Real.sin (ttOf t) := Real.sin_pos_of_pos_of_lt_pi h1 h2
  have hsq : (0:ℝ) < Real.sqrt 2 := Real.sqrt_pos.mpr (by norm_num)
  refine ⟨heq, ?_⟩
  rw [heq]
  unfold bragg2eVal
  exact div_pos (by norm_num)
    (mul_pos (div_pos (mul_pos (by norm_num) hfac) hsq) hsin)

/-- Witness for the amended C5 at `t = 30`, `LN = 0`. -/
theorem xf_bragg2e_zero_miller_no_error_witness :
    0 < ttOf 30 ∧ ttOf 30 < Real.pi ∧ 0 < xf_bragg2e 30 0 0 0 0 := by
  have h1 : 0 < ttOf 30 := by rw [ttOf_thirty]; positivity
  have h2 : ttOf 30 < Real.pi := by rw [ttOf_thirty]; linarith [Real.pi_pos]
  exact ⟨h1, h2, (xf_bragg2e_zero_miller_no_error 30 0 h1 h2).2⟩

/-- Claim C6 counterexample: at 1000 eV with the default Miller indices the
arcsine argument exceeds 1 and `xf_e2bragg` returns NaN (`none`), not an
error and not any numeric value. -/
theorem xf_e2bragg_nan_concrete :
    xf_e2bragg 1000 1 1 1 = none ∧ ∀ r : ℝ, xf_e2bragg 1000 1 1 1 ≠ some r := by
  have h : xf_e2bragg 1000 1 1 1 = e2braggVal 3 1000 := by
    unfold xf_e2bragg; rw [millerXor_default]; norm_num
  have hn : e2braggVal 3 1000 = none :=
    e2bragg_none_of_big 3 1000 (by norm_num) arg_bound_3
  refine ⟨h.trans hn, fun r hr => ?_⟩
  rw [h.trans hn] at hr
  exact Option.noConfusion hr

/-- Claim C6 amended: whenever the arcsine argument has absolute value
greater than 1 (and the keV heuristic does not fire), both copies of
`xf_e2bragg` return NaN (`none`); no error is signalled. -/
theorem xf_e2bragg_nan_of_domain (E : ℝ) (h k l : ℕ) (hE : 100 ≤ E) :
    (1 < |12398.42 / (2 * 5.43102 / Real.sqrt (millerXor h k l : ℝ)) / E| →
      xf_e2bragg E h k l = none)
    ∧ (1 < |12398.42 / (2 * 5.43102 / Real.sqrt (millerSq h k l)) / E| →
      xf_e2bragg_99 E h k l = none) := by
  constructor
  · intro ha
    unfold xf_e2bragg
    exact e2bragg_none_of_big _ E hE ha
  · intro ha
    unfold xf_e2bragg_99
    exact e2bragg_none_of_big _ E hE ha

/-- Witness for the amended C6 at 1000 eV, default Miller indices. -/
theorem xf_e2bragg_nan_of_domain_witness : xf_e2bragg 1000 1 1 1 = none := by
  have harg : 1 < |12398.42 / (2 * 5.43102 / Real.sqrt (millerXor 1 1 1 : ℝ)) / 1000| := by
    rw [millerXor_default]
    exact_mod_cast arg_bound_3
  exact (xf_e2bragg_nan_of_domain 1000 1 1 1 (by norm_num)).1 harg

/-- Claim C7 counterexample: with step 1000 and all demands 0, electrode 1
of the kb supply produces an adjacent difference of 2000 > 500; the call
ends in the safety return, but the write list is not empty — the
bank-selection write was issued before the check. -/
theorem set_influence_bank_write_on_abort :
    (set_influence 1 "kb" 1 ⟨1000, fun _ => 0⟩).outcome
      = InfluenceOutcome.safetyAbort
    ∧ (set_influence 1 "kb" 1 ⟨1000, fun _ => 0⟩).writes ≠ [] := by
  constructor
  · simp [set_influence, newDemands, npDiff, hasBigDiff, List.ofFn_succ]
    norm_num
  · simp [set_influence, newDemands, npDiff, hasBigDiff, List.ofFn_succ]
    norm_num

/-- Claim C7 amended: on a validated call whose recomputed demand vector
has an adjacent difference of absolute value above 500, `set_influence`
takes the safety return and issues no decrement and no increment write;
the only write issued is the bank selection, which precedes the check. -/
theorem set_influence_safety_no_step_writes (e : ℤ) (b : String) (bank : ℤ)
    (env : InfluenceEnv) (hb : b ∈ (["hfm", "kb"] : List String))
    (he0 : 0 ≤ e) (he1 : e ≤ 31)
    (hviol : hasBigDiff (npDiff (newDemands e env)) = true) :
    set_influence e b bank env
      = ⟨InfluenceOutcome.safetyAbort, [PSWrite.bankSelect (bank - 1)], 17⟩ := by
  unfold set_influence
  rw [if_neg (not_not_intro hb), if_neg (by omega), if_pos hviol]

/-- Witness for the amended C7 at the concrete violating input. -/
theorem set_influence_safety_no_step_writes_witness :
    set_influence 1 "kb" 1 ⟨1000, fun _ => 0⟩
      = ⟨InfluenceOutcome.safetyAbort, [PSWrite.bankSelect 0], 17⟩ := by
  have h := set_influence_safety_no_step_writes 1 "kb" 1 ⟨1000, fun _ => 0⟩
    (by simp) (by norm_num) (by norm_num)
    (by simp [newDemands, npDiff, hasBigDiff, List.ofFn_succ]; norm_num)
  simpa using h

/-- Claim C8 (confirmed): an invalid `bimorph` or an electrode outside
`[0, 31]` makes `set_influence` return early with the corresponding
reported condition, performing no device read and no device write. -/
theorem set_influence_validation (e : ℤ) (b : String) (bank : ℤ)
    (env : InfluenceEnv) :
    (b ∉ (["hfm", "kb"] : List String) →
      set_influence e b bank env = ⟨InfluenceOutcome.bimorphError, [], 0⟩)
    ∧ (b ∈ (["hfm", "kb"] : List String) → e < 0 ∨ 31 < e →
      set_influence e b bank env = ⟨InfluenceOutcome.electrodeError, [], 0⟩) := by
  constructor
  · intro hb; unfold set_influence; rw [if_pos hb]
  · intro hb he; unfold set_influence
    rw [if_neg (not_not_intro hb), if_pos he]

/-- Witness for C8: a bad bimorph name and an out-of-range electrode. -/
theorem set_influence_validation_witness :
    set_influence 5 "abc" 2 ⟨0, fun _ => 0⟩
      = ⟨InfluenceOutcome.bimorphError, [], 0⟩
    ∧ set_influence 40 "kb" 2 ⟨0, fun _ => 0⟩
      = ⟨InfluenceOutcome.electrodeError, [], 0⟩ :=
  ⟨(set_influence_validation 5 "abc" 2 ⟨0, fun _ => 0⟩).1 (by simp),
   (set_influence_validation 40 "kb" 2 ⟨0, fun _ => 0⟩).2 (by simp)
     (Or.inr (by norm_num))⟩

/-- Claim C9 counterexample: at 327.8 mm distance, 1 Å wavelength and the
default diameter the computed resolution exceeds 2 Å, so it is not ≈1.057 Å
as the claim states. -/
theorem resolution_example_not_small :
    2 < xf_detZ2recResolution 327.8 1 327.8 := by
  linarith [res_example_bounds.1]

/-- Claim C9 amended: the example computes `arctan(1/2)` and yields a
resolution `1/(2·sin(arctan(1/2)/2))`, which lies between 2.17 Å and
2.18 Å (≈2.176 Å, not ≈1.057 Å); round-tripping it through
`xf_recResolution2detZ` returns exactly 327.8 mm. -/
theorem resolution_example_value :
    xf_detZ2recResolution 327.8 1 327.8
      = 1 / (2 * Real.sin (Real.arctan 0.5 / 2))
    ∧ 2.17 < xf_detZ2recResolution 327.8 1 327.8
    ∧ xf_detZ2recResolution 327.8 1 327.8 < 2.18
    ∧ xf_recResolution2detZ (xf_detZ2recResolution 327.8 1 327.8) 1 327.8
      = some 327.8 :=
  ⟨res_example_eq, res_example_bounds.1, res_example_bounds.2,
   recRes_roundtrip 327.8 1 327.8 (by norm_num) (by norm_num) (by norm_num)⟩

/-- Claim C10 (confirmed): an energy below 100 is multiplied by 1000
before the conversion, in both copies of `xf_e2bragg`; in particular 50
and 50000 give the same result. -/
theorem xf_e2bragg_kev_heuristic (E : ℝ) (h k l : ℕ) (hE : E < 100) :
    xf_e2bragg E h k l = e2braggConv (millerXor h k l : ℝ) (E * 1e3)
    ∧ xf_e2bragg_99 E h k l = e2braggConv (millerSq h k l) (E * 1e3)
    ∧ xf_e2bragg 50 h k l = xf_e2bragg 50000 h k l
    ∧ xf_e2bragg_99 50 h k l = xf_e2bragg_99 50000 h k l := by
  have h50 : ∀ s : ℝ, e2braggVal s 50 = e2braggVal s 50000 := by
    intro s
    unfold e2braggVal
    rw [if_pos (by norm_num : (50:ℝ) < 100),
      if_neg (by norm_num : ¬(50000:ℝ) < 100)]
    norm_num
  refine ⟨?_, ?_, h50 _, h50 _⟩
  · unfold xf_e2bragg e2braggVal; rw [if_pos hE]
  · unfold xf_e2bragg_99 e2braggVal; rw [if_pos hE]

/-- Witness for C10 at 50 (keV reading) vs 50000 eV. -/
theorem xf_e2bragg_kev_heuristic_witness :
    (50 : ℝ) < 100 ∧ xf_e2bragg 50 1 1 1 = xf_e2bragg 50000 1 1 1 :=
  ⟨by norm_num, (xf_e2bragg_kev_heuristic 50 1 1 1 (by norm_num)).2.2.1⟩

end Claims
